import Mathlib

/-!
Verification development for the weather-dashboard data-acquisition core
(`src/core/data_validator.py` and `src/core/api.py`).

Modelling conventions (shallow embedding of the Python source):

* JSON-like Python values are modelled by the inductive type `Val`.
  Python floats are exact rationals (`vnum`), with an explicit `vnan`
  constructor for NaN; binary floating-point rounding is not modelled.
* `Option` models fallible Python code: `none` is an uncaught exception
  (or, for functions that return `None` on failure, the `None` result —
  the two are indistinguishable to callers of the modelled functions).
* Wall-clock inputs (`datetime.now()`, `datetime.fromtimestamp`) are
  passed in explicitly: `dayOf : ℚ → Int` maps a unix timestamp to a
  calendar-day index and `today : Int` is the current day; `nowTs : Int`
  is the current unix time.  ISO rendering of timestamps is abstracted
  to the underlying integer value.
* `str()` renderings of non-string values and `float()` parsing of the
  special strings "nan"/"inf"/exponent forms are abstracted (see
  `pyStr` and `parseDecimal?`); no claim below depends on them.
-/

set_option autoImplicit false

/-- A Python/JSON value as it appears in provider payloads. -/
inductive Val where
  | vnull
  | vnan
  | vnum (q : ℚ)
  | vstr (s : String)
  | vlist (l : List Val)
  | vdict (d : List (String × Val))
deriving Repr

open Val

/-- Association-list lookup, first match wins (Python dict keys are unique,
so the policy is immaterial for well-formed payloads). -/
def dlookup : List (String × Val) → String → Option Val
  | [], _ => none
  | (k, v) :: rest, key => if k = key then some v else dlookup rest key

/-- `d.get(key, dflt)` on a genuine dict. -/
def pyDictGetD (d : List (String × Val)) (key : String) (dflt : Val) : Val :=
  (dlookup d key).getD dflt

/-- `v.get(key, dflt)`: raises (`none`) when `v` is not a dict. -/
def pyGetD (v : Val) (key : String) (dflt : Val) : Option Val :=
  match v with
  | vdict d => some (pyDictGetD d key dflt)
  | _ => none

/-- `v[key]` with a string key: dict lookup, `KeyError`/`TypeError` is `none`. -/
def pySubscript (v : Val) (key : String) : Option Val :=
  match v with
  | vdict d => dlookup d key
  | _ => none

/-- `v[i]` with an integer index (used only at index 0 in the source). -/
def pyIndex (v : Val) (i : Nat) : Option Val :=
  match v with
  | vlist l => l.get? i
  | vstr s => (s.data.get? i).map (fun c => vstr (String.mk [c]))
  | _ => none

/-- `len(v)`; raises on numbers and `None`. -/
def pyLen (v : Val) : Option Nat :=
  match v with
  | vlist l => some l.length
  | vdict d => some d.length
  | vstr s => some s.length
  | _ => none

/-- Python truthiness. -/
def pyTruthy (v : Val) : Bool :=
  match v with
  | vnull => false
  | vnan => true
  | vnum q => q ≠ 0
  | vstr s => s ≠ ""
  | vlist l => !l.isEmpty
  | vdict d => !d.isEmpty

/-- Equality test used for `in` / `.count` on scalar values; Python equality
between a string and a non-string is `False`.  (Containers are compared
structurally in Python; the source only ever compares scalars.) -/
def scalarEq : Val → Val → Bool
  | vnull, vnull => true
  | vnan, vnan => true
  | vnum a, vnum b => a = b
  | vstr a, vstr b => a = b
  | _, _ => false

/-- Strip leading and trailing whitespace (structural replacement for the
built-in `String.trim`, which does not reduce in the kernel). -/
def pyStrip (s : String) : String :=
  String.mk (((s.data.dropWhile Char.isWhitespace).reverse.dropWhile Char.isWhitespace).reverse)

/-- Split a character list on a separator character (always non-empty). -/
def splitOnChar (c : Char) : List Char → List (List Char)
  | [] => [[]]
  | x :: xs =>
    match splitOnChar c xs with
    | [] => [[]]
    | g :: gs => if x = c then [] :: g :: gs else (x :: g) :: gs

/-- Substring test on character lists. -/
def containsSub (needle hay : List Char) : Bool :=
  (List.range (hay.length + 1)).any (fun i => needle.isPrefixOf (hay.drop i))

/-- `needle in v` for a string needle: key membership for dicts, element
membership for lists, substring for strings; `TypeError` (`none`) otherwise. -/
def pyContains (needle : String) (v : Val) : Option Bool :=
  match v with
  | vdict d => some (d.any (fun p => p.1 = needle))
  | vlist l => some (l.any (scalarEq (vstr needle)))
  | vstr s => some (containsSub needle.data s.data)
  | _ => none

/-!
Batteries marks `Rat.add`, `Rat.sub`, `Rat.mul`, `Rat.inv` and
`Rat.ofScientific` `@[irreducible]`, which blocks `rfl`/`decide`
evaluation of anything built from them.  The model therefore computes
with the reducible primitives `mkRat`, `Rat.divInt`, `Rat.blt` and
`Rat.floor`; the bridge lemmas right after the definitions prove that
these wrappers are exactly rational arithmetic.
-/

/-- Rational addition (reducible form). -/
def qadd (a b : ℚ) : ℚ := mkRat (a.num * b.den + b.num * a.den) (a.den * b.den)

/-- Rational subtraction (reducible form). -/
def qsub (a b : ℚ) : ℚ := mkRat (a.num * b.den - b.num * a.den) (a.den * b.den)

/-- Rational multiplication (reducible form). -/
def qmul (a b : ℚ) : ℚ := mkRat (a.num * b.num) (a.den * b.den)

/-- Rational negation (reducible form). -/
def qneg (a : ℚ) : ℚ := Rat.neg a

/-- Rational division (reducible form); division by zero yields zero,
as for `(· / ·)` on `ℚ`. -/
def qdiv (a b : ℚ) : ℚ := Rat.divInt (a.num * (b.den : ℤ)) ((a.den : ℤ) * b.num)

/-- Boolean `a ≤ b` on `ℚ` (reducible form). -/
def qle (a b : ℚ) : Bool := !Rat.blt b a

/-- Boolean `a < b` on `ℚ` (reducible form). -/
def qlt (a b : ℚ) : Bool := Rat.blt a b

/-- Binary minimum on `ℚ` (reducible form). -/
def qmin (a b : ℚ) : ℚ := if qle a b then a else b

/-- Binary maximum on `ℚ` (reducible form). -/
def qmax (a b : ℚ) : ℚ := if qle a b then b else a

/-- `ℤ → ℚ` cast (reducible form). -/
def qofInt (z : ℤ) : ℚ := Rat.divInt z 1

/-- `ℕ → ℚ` cast (reducible form). -/
def qofNat (n : ℕ) : ℚ := Rat.divInt (n : ℤ) 1

/-- Sum of a rational list (reducible form). -/
def qsum (l : List ℚ) : ℚ := l.foldl qadd 0

theorem qadd_eq (a b : ℚ) : qadd a b = a + b := (Rat.add_def' a b).symm

theorem qsub_eq (a b : ℚ) : qsub a b = a - b := (Rat.sub_def' a b).symm

theorem qmul_eq (a b : ℚ) : qmul a b = a * b := by
  rw [qmul, Rat.mul_def, Rat.normalize_eq_mkRat]

theorem qneg_eq (a : ℚ) : qneg a = -a := rfl

theorem qle_iff (a b : ℚ) : qle a b = true ↔ a ≤ b := by
  show (!Rat.blt b a) = true ↔ Rat.blt b a = false
  cases Rat.blt b a <;> simp

theorem qlt_iff (a b : ℚ) : qlt a b = true ↔ a < b := by
  show Rat.blt a b = true ↔ Rat.blt a b = true
  exact Iff.rfl

theorem qofInt_eq (z : ℤ) : qofInt z = (z : ℚ) := by
  rw [qofInt, Rat.divInt_one]

theorem qofNat_eq (n : ℕ) : qofNat n = (n : ℚ) := by
  rw [qofNat, Rat.divInt_one]; rfl

theorem qdiv_eq (a b : ℚ) : qdiv a b = a / b := by
  rw [qdiv, Rat.divInt_eq_div]
  push_cast
  conv_rhs => rw [← Rat.num_div_den a, ← Rat.num_div_den b]
  rw [div_div_eq_mul_div, div_mul_eq_mul_div, div_div]

theorem qmin_eq (a b : ℚ) : qmin a b = min a b := by
  rw [qmin, min_def]
  by_cases h : a ≤ b
  · rw [if_pos ((qle_iff a b).2 h), if_pos h]
  · rw [if_neg (fun hb => h ((qle_iff a b).1 hb)), if_neg h]

theorem qmax_eq (a b : ℚ) : qmax a b = max a b := by
  rw [qmax, max_def]
  by_cases h : a ≤ b
  · rw [if_pos ((qle_iff a b).2 h), if_pos h]
  · rw [if_neg (fun hb => h ((qle_iff a b).1 hb)), if_neg h]

/-- All-digit character list to `Nat` (empty list maps to 0; callers reject
empties). -/
def natOfDigits? (l : List Char) : Option Nat :=
  if l.all Char.isDigit then
    some (l.foldl (fun a c => a * 10 + (c.toNat - 48)) 0)
  else none

/-- `float(s)` on plain decimal strings (optional sign, digits, optional
fraction).  Exponent/"inf"/"nan" spellings are abstracted as failures;
no claim involves them. -/
def parseDecimal? (s0 : String) : Option ℚ :=
  let t := (pyStrip s0).data
  let sgn : ℚ := if t.head? = some '-' then qneg 1 else 1
  let r := if t.head? = some '-' ∨ t.head? = some '+' then t.drop 1 else t
  match splitOnChar '.' r with
  | [ip] =>
      if ip = [] then none else (natOfDigits? ip).map (fun n => qmul sgn (qofNat n))
  | [ip, fp] =>
      if ip = [] ∧ fp = [] then none
      else do
        let i ← natOfDigits? ip
        let f ← natOfDigits? fp
        some (qmul sgn (qadd (qofNat i) (qdiv (qofNat f) (qofNat (10 ^ fp.length)))))
  | _ => none

/-- The result of Python `float(...)`: a finite value or NaN. -/
inductive PyFloat where
  | nan
  | fin (q : ℚ)

/-- `float(v)`: `none` when the coercion raises. -/
def pyFloat? : Val → Option PyFloat
  | vnum q => some (.fin q)
  | vnan => some .nan
  | vstr s => (parseDecimal? s).map .fin
  | _ => none

/-- Strict numeric view used where the source does arithmetic on values.
NaN is treated as a failure here (the source would instead propagate NaN
and fail at the enclosing `round`/format step, with the same caught-exception
outcome inside `try` blocks; no claim involves NaN arithmetic). -/
def asQ? : Val → Option ℚ
  | vnum q => some q
  | _ => none

/-- View of a dict value. -/
def asDict? : Val → Option (List (String × Val))
  | vdict d => some d
  | _ => none

/-- View of a list value (iterating any other value either raises or, for
strings, yields items on which the source's `.get` calls raise). -/
def asList? : Val → Option (List Val)
  | vlist l => some l
  | _ => none

/-- View of a string value. -/
def asStr? : Val → Option String
  | vstr s => some s
  | _ => none

/-- Round half to even, as Python's `round`. -/
def roundHalfEven (x : ℚ) : ℤ :=
  let f := Rat.floor x
  let r := qsub x (qofInt f)
  if qlt r (mkRat 1 2) then f
  else if qlt (mkRat 1 2) r then f + 1
  else if f % 2 = 0 then f else f + 1

/-- Python `round(x, 1)` on an exact rational. -/
def pyRound1q (x : ℚ) : ℚ := qdiv (qofInt (roundHalfEven (qmul x 10))) 10

/-- Python `round(x)` (no digits argument): `ValueError` on NaN. -/
def pyRound0? (v : Val) : Option ℤ :=
  match v with
  | vnum q => some (roundHalfEven q)
  | _ => none

/-- Python `round(x, 1)` on a value: NaN propagates, non-numbers raise. -/
def pyRound1Val : Val → Option Val
  | vnum q => some (vnum (pyRound1q q))
  | vnan => some vnan
  | _ => none

/-- `a + b` as used for `pop = rain + snow` (numeric addition; NaN
propagates; anything else raises). -/
def pyAdd : Val → Val → Option Val
  | vnum a, vnum b => some (vnum (qadd a b))
  | vnan, vnum _ => some vnan
  | vnum _, vnan => some vnan
  | vnan, vnan => some vnan
  | _, _ => none

/-- `a > b` on numbers (`nan > x` and `x > nan` are `False`); raises otherwise. -/
def pyGt : Val → Val → Option Bool
  | vnum a, vnum b => some (qlt b a)
  | vnan, vnum _ => some false
  | vnum _, vnan => some false
  | vnan, vnan => some false
  | _, _ => none

/-- `str(v)`.  String values render as themselves; renderings of the other
shapes are abstract placeholders (only ever used inside the synthetic-day
description text, which no claim inspects beyond its presence). -/
def pyStr : Val → String
  | vstr s => s
  | vnull => "None"
  | vnan => "nan"
  | vnum q => toString q
  | vlist _ => "[...]"
  | vdict _ => "\x7b...\x7d"

/-- One step of `str.title()`: uppercase an alphabetic character that follows
a non-alphabetic one, lowercase the rest. -/
def titleChar (prevAlpha : Bool) (c : Char) : Char :=
  if c.isAlpha then (if prevAlpha then c.toLower else c.toUpper) else c

/-- `s.title()` (ASCII behaviour). -/
def pyTitle (s : String) : String :=
  String.mk ((s.data.foldl
    (fun (st : Bool × List Char) c => (c.isAlpha, titleChar st.1 c :: st.2))
    (false, [])).2.reverse)

/-- Whitespace-separated grouping of a character list (always non-empty). -/
def splitWsGroups : List Char → List (List Char)
  | [] => [[]]
  | x :: xs =>
    match splitWsGroups xs with
    | [] => [[]]
    | g :: gs => if x.isWhitespace then [] :: g :: gs else (x :: g) :: gs

/-- `s.split()` — split on whitespace runs, dropping empty tokens. -/
def pySplitWs (s : String) : List String :=
  ((splitWsGroups s.data).filter (fun g => g ≠ [])).map String.mk

/-- `sum(l)` over numeric values (starts from 0, as Python's `sum`). -/
def pySumQ? (l : List Val) : Option ℚ :=
  l.foldl (fun acc v => do return qadd (← acc) (← asQ? v)) (some 0)

/-- `max(set(l), key=l.count)`: an element of maximal multiplicity.
`ValueError` on an empty list; `TypeError` on unhashable elements.
Python's `set` iteration order makes the tie-break among equally frequent
elements non-deterministic; this model fixes first-seen-wins, and no
settled claim depends on a tie. -/
def mostCommonVal (l : List Val) : Option Val :=
  if l.any (fun v => match v with | vlist _ => true | vdict _ => true | _ => false) then
    none
  else
    match l with
    | [] => none
    | x :: xs =>
        some (xs.foldl
          (fun best c =>
            if l.countP (fun y => scalarEq c y) > l.countP (fun y => scalarEq best y)
            then c else best) x)

/-- Minimum of a non-empty rational list (`min(temps)`). -/
def listMinQ (x : ℚ) (xs : List ℚ) : ℚ := xs.foldl qmin x

/-- Maximum of a non-empty rational list (`max(temps)`). -/
def listMaxQ (x : ℚ) (xs : List ℚ) : ℚ := xs.foldl qmax x

/-- `\x7b"error": msg\x7d` dictionaries returned by the API client. -/
def errDict (msg : String) : Val := vdict [("error", vstr msg)]

/-! ## `src/core/data_validator.py` -/

/-- `ValidationRules` (`data_validator.py` lines 8–43). -/
structure ValidationRules where
  min_temperature_celsius : ℚ := -60
  max_temperature_celsius : ℚ := 60
  min_temperature_fahrenheit : ℚ := -76
  max_temperature_fahrenheit : ℚ := 140
  min_temperature_kelvin : ℚ := mkRat 21315 100
  max_temperature_kelvin : ℚ := mkRat 33315 100
  temperature_unit : String := "imperial"
  min_humidity : ℤ := 0
  max_humidity : ℤ := 100
  min_pressure : ℚ := 800
  max_pressure : ℚ := 1200
  max_wind_speed_metric : ℚ := 200
  max_wind_speed_imperial : ℚ := 450
  max_visibility : ℤ := 50000

/-- The default `ValidationRules()` instance. -/
def defaultRules : ValidationRules := {}

/-- `WeatherDataValidator._clean_string`: `None` for null, stripped string
otherwise, with empty-after-strip mapped to `None`.  `str(value)` of
non-strings is rendered by `pyStr` (always non-empty for non-null values). -/
def clean_string (v : Val) : Option String :=
  match v with
  | vnull => none
  | _ => if pyStrip (pyStr v) = "" then none else some (pyStrip (pyStr v))

/-- `WeatherDataValidator._clean_float`: coerce with `float(...)`, mapping
failures and NaN to `None`. -/
def clean_float (v : Val) : Option ℚ :=
  match v with
  | vnull => none
  | _ =>
    match pyFloat? v with
    | some (.fin q) => some q
    | some .nan => none
    | none => none

/-- `int(q)` truncates toward zero. -/
def truncQ (q : ℚ) : ℤ := if qle 0 q then Rat.floor q else -(Rat.floor (qneg q))

/-- `WeatherDataValidator._clean_int`: `int(float(value))`, `None` on failure
(`int(NaN)` raises, hence `None`). -/
def clean_int (v : Val) : Option ℤ :=
  match v with
  | vnull => none
  | _ =>
    match pyFloat? v with
    | some (.fin q) => some (truncQ q)
    | _ => none

/-- `WeatherDataValidator._convert_unix_timestamp`: the ISO string is
abstracted to the underlying integer timestamp (`int(timestamp)`);
out-of-range `OSError` cases are not modelled (no claim involves them). -/
def convert_unix_timestamp (v : Val) : Option ℤ :=
  match v with
  | vnull => none
  | _ =>
    match pyFloat? v with
    | some (.fin q) => some (truncQ q)
    | _ => none

/-- The cleaned current-weather record built by
`validate_and_clean_current_weather` (the volatile `timestamp` metadata
field, `datetime.now().isoformat()`, is omitted: it is wall-clock noise
that no consumer nor claim inspects). -/
structure CleanedCurrent where
  api_timestamp : Option ℤ
  city : Option String
  country : Option String
  latitude : Option ℚ
  longitude : Option ℚ
  temperature : Option ℚ
  feels_like : Option ℚ
  temp_min : Option ℚ
  temp_max : Option ℚ
  humidity : Option ℤ
  pressure : Option ℚ
  sea_level : Option ℚ
  ground_level : Option ℚ
  weather_main : Option String
  weather_description : Option String
  weather_icon : Option String
  wind_speed : Option ℚ
  wind_direction : Option ℤ
  wind_gust : Option ℚ
  cloudiness : Option ℤ
  visibility : Option ℤ
  uv_index : Option ℚ
  sunrise : Option ℤ
  sunset : Option ℤ
deriving Repr, DecidableEq

/-- Truthiness of an optional string field of the cleaned record
(`not data.get(field)`); `clean_string` never produces an empty string. -/
def falsyOptStr (o : Option String) : Bool :=
  match o with
  | none => true
  | some s => s = ""

/-- Truthiness of an optional float field of the cleaned record
(`not data.get(field)`): both `None` and `0.0` are falsy. -/
def falsyOptQ (o : Option ℚ) : Bool :=
  match o with
  | none => true
  | some q => q = 0

/-- `WeatherDataValidator._validate_weather_data` (lines 161–219). -/
def validate_weather_data_cleaned (unit : String) (rules : ValidationRules)
    (data : CleanedCurrent) : Bool :=
  if falsyOptStr data.city ∨ falsyOptQ data.temperature ∨
      falsyOptStr data.weather_description then
    false
  else
    (match data.temperature with
     | none => true
     | some temp =>
        if unit = "imperial" then
          qle rules.min_temperature_fahrenheit temp &&
            qle temp rules.max_temperature_fahrenheit
        else if unit = "metric" then
          qle rules.min_temperature_celsius temp && qle temp rules.max_temperature_celsius
        else
          qle rules.min_temperature_kelvin temp && qle temp rules.max_temperature_kelvin) &&
    (match data.humidity with
     | none => true
     | some h => decide (rules.min_humidity ≤ h ∧ h ≤ rules.max_humidity)) &&
    (match data.pressure with
     | none => true
     | some p => qle rules.min_pressure p && qle p rules.max_pressure) &&
    (match data.wind_speed with
     | none => true
     | some w =>
        if unit = "imperial" then qle w rules.max_wind_speed_imperial
        else qle w rules.max_wind_speed_metric)

/-- `raw_data.get('weather', [\x7b\x7d])[0]` followed by the `.get` calls on
the result: succeeds exactly when the first element exists and is a dict. -/
def weatherHead? (rawd : List (String × Val)) : Option (List (String × Val)) :=
  match pyDictGetD rawd "weather" (vlist [vdict []]) with
  | vlist (vdict w :: _) => some w
  | _ => none

/-- `WeatherDataValidator.validate_and_clean_current_weather` (lines 53–125).
`none` covers both a caught extraction exception and a failed validation. -/
def validate_and_clean_current_weather (unit : String) (rules : ValidationRules)
    (raw : Val) : Option CleanedCurrent := do
  let rawd ← asDict? raw
  let main_data ← asDict? (pyDictGetD rawd "main" (vdict []))
  let weather_data ← weatherHead? rawd
  let wind_data ← asDict? (pyDictGetD rawd "wind" (vdict []))
  let clouds_data ← asDict? (pyDictGetD rawd "clouds" (vdict []))
  let sys_data ← asDict? (pyDictGetD rawd "sys" (vdict []))
  let coord_data ← asDict? (pyDictGetD rawd "coord" (vdict []))
  let cleaned : CleanedCurrent :=
    { api_timestamp := convert_unix_timestamp (pyDictGetD rawd "dt" vnull)
      city := clean_string (pyDictGetD rawd "name" vnull)
      country := clean_string (pyDictGetD sys_data "country" vnull)
      latitude := clean_float (pyDictGetD coord_data "lat" vnull)
      longitude := clean_float (pyDictGetD coord_data "lon" vnull)
      temperature := clean_float (pyDictGetD main_data "temp" vnull)
      feels_like := clean_float (pyDictGetD main_data "feels_like" vnull)
      temp_min := clean_float (pyDictGetD main_data "temp_min" vnull)
      temp_max := clean_float (pyDictGetD main_data "temp_max" vnull)
      humidity := clean_int (pyDictGetD main_data "humidity" vnull)
      pressure := clean_float (pyDictGetD main_data "pressure" vnull)
      sea_level := clean_float (pyDictGetD main_data "sea_level" vnull)
      ground_level := clean_float (pyDictGetD main_data "grnd_level" vnull)
      weather_main := clean_string (pyDictGetD weather_data "main" vnull)
      weather_description := clean_string (pyDictGetD weather_data "description" vnull)
      weather_icon := clean_string (pyDictGetD weather_data "icon" vnull)
      wind_speed := clean_float (pyDictGetD wind_data "speed" vnull)
      wind_direction := clean_int (pyDictGetD wind_data "deg" vnull)
      wind_gust := clean_float (pyDictGetD wind_data "gust" vnull)
      cloudiness := clean_int (pyDictGetD clouds_data "all" vnull)
      visibility := clean_int (pyDictGetD rawd "visibility" (vnum 10000))
      uv_index := clean_float (pyDictGetD rawd "uvi" vnull)
      sunrise := convert_unix_timestamp (pyDictGetD sys_data "sunrise" vnull)
      sunset := convert_unix_timestamp (pyDictGetD sys_data "sunset" vnull) }
  if validate_weather_data_cleaned unit rules cleaned then some cleaned else none

/-- `WeatherDataValidator._is_valid_temperature` (lines 445–458). -/
def is_valid_temperature (unit : String) (rules : ValidationRules) (v : Val) : Bool :=
  match v with
  | vnull => false
  | _ =>
    match pyFloat? v with
    | some (.fin q) =>
        if unit = "imperial" then
          qle rules.min_temperature_fahrenheit q && qle q rules.max_temperature_fahrenheit
        else if unit = "metric" then
          qle rules.min_temperature_celsius q && qle q rules.max_temperature_celsius
        else
          qle rules.min_temperature_kelvin q && qle q rules.max_temperature_kelvin
    | some .nan => false
    | none => false

/-- `WeatherDataValidator._is_valid_humidity` (lines 460–468);
`int(humidity)` truncates. -/
def is_valid_humidity (rules : ValidationRules) (v : Val) : Bool :=
  match v with
  | vnull => false
  | _ =>
    match pyFloat? v with
    | some (.fin q) =>
        decide (rules.min_humidity ≤ truncQ q ∧ truncQ q ≤ rules.max_humidity)
    | _ => false

/-- `WeatherDataValidator._is_valid_pressure` (lines 470–478). -/
def is_valid_pressure (rules : ValidationRules) (v : Val) : Bool :=
  match v with
  | vnull => false
  | _ =>
    match pyFloat? v with
    | some (.fin q) => qle rules.min_pressure q && qle q rules.max_pressure
    | _ => false

/-- `WeatherDataValidator._is_valid_wind_speed` (lines 480–491). -/
def is_valid_wind_speed (unit : String) (rules : ValidationRules) (v : Val) : Bool :=
  match v with
  | vnull => false
  | _ =>
    match pyFloat? v with
    | some (.fin q) =>
        if unit = "imperial" then qle 0 q && qle q rules.max_wind_speed_imperial
        else qle 0 q && qle q rules.max_wind_speed_metric
    | _ => false

/-- `round(x, 1) if x is not None else None`, as applied to
`temp_day`/`temp_night` in `_validate_daily_forecast_day`. -/
def roundOrNull? (v : Val) : Option Val :=
  match v with
  | vnull => some vnull
  | _ => pyRound1Val v

/-- `WeatherDataValidator._validate_daily_forecast_day` (lines 388–443):
field-level-lenient cleaning of one forecast day.  Result is the returned
dict; `none` is either the explicit `return None` or a caught exception. -/
def validate_daily_forecast_day (unit : String) (rules : ValidationRules)
    (day : Val) : Option Val := do
  let dayd ← asDict? day
  let temp_data ← asDict? (pyDictGetD dayd "temp" (vdict []))
  let temp_min := pyDictGetD temp_data "min" vnull
  let temp_max := pyDictGetD temp_data "max" vnull
  let temp_day := pyDictGetD temp_data "day" vnull
  let temp_night := pyDictGetD temp_data "night" vnull
  if ¬ is_valid_temperature unit rules temp_min ∨
      ¬ is_valid_temperature unit rules temp_max then
    none
  else do
    let weather_list := pyDictGetD dayd "weather" (vlist [])
    if ¬ pyTruthy weather_list then none
    else do
      let weather_info ← asDict? (← pyIndex weather_list 0)
      let description ← asStr? (pyDictGetD weather_info "description" (vstr ""))
      let tminR ← pyRound1Val temp_min
      let tmaxR ← pyRound1Val temp_max
      let tdayR ← roundOrNull? temp_day
      let tnightR ← roundOrNull? temp_night
      let humidity := pyDictGetD dayd "humidity" vnull
      let pressure := pyDictGetD dayd "pressure" vnull
      let wind_speed := pyDictGetD dayd "wind_speed" vnull
      some (vdict
        [ ("dt", pyDictGetD dayd "dt" vnull),
          ("temp_min", tminR),
          ("temp_max", tmaxR),
          ("temp_day", tdayR),
          ("temp_night", tnightR),
          ("description", vstr (pyTitle description)),
          ("main", pyDictGetD weather_info "main" (vstr "")),
          ("icon", pyDictGetD weather_info "icon" (vstr "")),
          ("humidity", if is_valid_humidity rules humidity then humidity else vnull),
          ("pressure", if is_valid_pressure rules pressure then pressure else vnull),
          ("wind_speed",
            if is_valid_wind_speed unit rules wind_speed then wind_speed else vnull),
          ("wind_deg", pyDictGetD dayd "wind_deg" vnull),
          ("clouds", pyDictGetD dayd "clouds" vnull),
          ("pop", pyDictGetD dayd "pop" vnull),
          ("uv_index", pyDictGetD dayd "uvi" vnull),
          ("sunrise", pyDictGetD dayd "sunrise" vnull),
          ("sunset", pyDictGetD dayd "sunset" vnull) ])

/-! ## `src/core/api.py` — retrying HTTP client -/

/-- Outcome of one transport attempt inside `_make_api_request`: an HTTP
response with a status code (the body only matters for 200), or one of the
caught `requests` exceptions. -/
inductive HttpOutcome where
  | status (code : Nat) (body : Val)
  | timeout
  | connError
  | reqError

/-- Observable trace of `_make_api_request`: the returned value, the
`time.sleep` calls issued inside the retry loop (in seconds, in order),
and the number of transport attempts made.  The rate-limiter sleep in
`_respect_rate_limit` happens before the loop and is wall-clock dependent;
it is not a retry/backoff sleep and is not part of this trace. -/
structure RequestTrace where
  result : Val
  sleeps : List ℚ
  attempts : Nat

/-- `retry_delays = [1, 2, 4]` (`api.py` line 57). -/
def retryDelays : List ℚ := [1, 2, 4]

/-- The `for attempt in range(max_retries)` loop of `_make_api_request`
(`api.py` lines 59–104), unrolled over the remaining iteration count.
`attempt` is the current loop index; the status dispatch mirrors the
source's `if/elif` chain, and the trailing backoff sleep is skipped on
the last attempt (`if attempt < self.max_retries - 1`). -/
def makeApiRequestLoop (t : Nat → HttpOutcome) (maxRetries : Nat) :
    Nat → Nat → RequestTrace
  | _, 0 => { result := errDict "API request failed after retries", sleeps := [], attempts := 0 }
  | attempt, r + 1 =>
    let rest := makeApiRequestLoop t maxRetries (attempt + 1) r
    let backoff : RequestTrace :=
      if attempt < maxRetries - 1 then
        { result := rest.result,
          sleeps := retryDelays.getD (min attempt (retryDelays.length - 1)) 0 :: rest.sleeps,
          attempts := rest.attempts + 1 }
      else
        { result := rest.result, sleeps := rest.sleeps, attempts := rest.attempts + 1 }
    match t attempt with
    | .status code body =>
      if code = 200 then { result := body, sleeps := [], attempts := 1 }
      else if code = 401 then
        { result := errDict "Invalid API key", sleeps := [], attempts := 1 }
      else if code = 404 then
        { result := errDict "Location not found", sleeps := [], attempts := 1 }
      else if code = 429 then
        { result := rest.result, sleeps := 60 :: rest.sleeps, attempts := rest.attempts + 1 }
      else backoff
    | _ => backoff

/-- `WeatherAPI._make_api_request` (`api.py` lines 53–104), with the
transport injected as a map from attempt index to outcome. -/
def make_api_request (maxRetries : Nat) (t : Nat → HttpOutcome) : RequestTrace :=
  makeApiRequestLoop t maxRetries 0 maxRetries

/-- A retryable outcome: anything that is not a 200/401/404/429 response
(other status codes, timeouts, connection errors, request exceptions). -/
def retryableOutcome : HttpOutcome → Bool
  | .status code _ => code ≠ 200 && code ≠ 401 && code ≠ 404 && code ≠ 429
  | _ => true

/-! ## `src/core/api.py` — geocoding -/

/-- `WeatherAPI.get_coordinates` (`api.py` lines 224–257) as a function of
the geocoding response `resp` (what `_make_api_request` returned).
`none` models an uncaught exception (the method has no `try` block). -/
def get_coordinates (resp : Val) (city state : String) : Option Val :=
  if pyTruthy resp then
    match pyContains "error" resp with
    | none => none
    | some true => some resp
    | some false =>
      match pyLen resp with
      | none => none
      | some n =>
        if pyTruthy resp ∧ 0 < n then
          match pyIndex resp 0 with
          | none => none
          | some locv =>
            match asDict? locv with
            | none => none
            | some loc =>
              some (vdict
                [ ("lat", pyDictGetD loc "lat" vnull),
                  ("lon", pyDictGetD loc "lon" vnull),
                  ("name", pyDictGetD loc "name" (vstr city)),
                  ("state", pyDictGetD loc "state" (vstr state)),
                  ("country", pyDictGetD loc "country" (vstr "US")) ])
        else some (errDict "Location not found")
  else some resp

/-! ## `src/core/api.py` — forecast processing -/

/-- `WeatherAPI._validate_basic_structure` (`api.py` lines 106–136);
any raised lookup is caught and yields `False`. -/
def validate_basic_structure (data : Val) : Bool :=
  (do
    let hasName ← pyContains "name" data
    let hasMain ← pyContains "main" data
    let hasWeather ← pyContains "weather" data
    if ¬ (hasName ∧ hasMain ∧ hasWeather) then pure false
    else do
      let main_data ← pyGetD data "main" (vdict [])
      let hasTemp ← pyContains "temp" main_data
      if ¬ hasTemp then pure false
      else do
        let weather_data ← pyGetD data "weather" (vlist [])
        let isList : Bool := match weather_data with | vlist _ => true | _ => false
        if ¬ pyTruthy weather_data ∨ ¬ isList then pure false
        else do
          let w0 ← pyIndex weather_data 0
          pyContains "description" w0).getD false

/-- One iteration of the `for item in forecast_list` loop of
`_process_daily_forecast` (`api.py` lines 393–427).  `some none` is a
skipped (today) item, `some (some e)` a produced daily entry, `none` an
exception (caught at the function level, emptying the whole result). -/
def processClimateItem (dayOf : ℚ → ℤ) (today : ℤ) (item : Val) :
    Option (Option Val) := do
  let itemd ← asDict? item
  let dt := pyDictGetD itemd "dt" vnull
  let skip ← if pyTruthy dt then do
      let q ← asQ? dt
      pure (dayOf q == today)
    else pure false
  if skip then pure none
  else do
    let temp_data ← asDict? (pyDictGetD itemd "temp" (vdict []))
    let _feels_like_data ← asDict? (pyDictGetD itemd "feels_like" (vdict []))
    let weather_data ← weatherHead? itemd
    let tmin ← pyRound1Val (pyDictGetD temp_data "min" (vnum 0))
    let tmax ← pyRound1Val (pyDictGetD temp_data "max" (vnum 0))
    let tday ← pyRound1Val (pyDictGetD temp_data "day" (vnum 0))
    let tnight ← pyRound1Val (pyDictGetD temp_data "night" (vnum 0))
    let descr ← asStr? (pyDictGetD weather_data "description" (vstr ""))
    let popv ← pyAdd (pyDictGetD itemd "rain" (vnum 0)) (pyDictGetD itemd "snow" (vnum 0))
    pure (some (vdict
      [ ("dt", pyDictGetD itemd "dt" vnull),
        ("temp_min", tmin),
        ("temp_max", tmax),
        ("temp_day", tday),
        ("temp_night", tnight),
        ("description", vstr (pyTitle descr)),
        ("main", pyDictGetD weather_data "main" (vstr "")),
        ("icon", pyDictGetD weather_data "icon" (vstr "")),
        ("humidity", pyDictGetD itemd "humidity" vnull),
        ("pressure", pyDictGetD itemd "pressure" vnull),
        ("wind_speed", pyDictGetD itemd "speed" vnull),
        ("wind_deg", pyDictGetD itemd "deg" vnull),
        ("clouds", pyDictGetD itemd "clouds" vnull),
        ("pop", popv),
        ("uv_index", vnull),
        ("sunrise", pyDictGetD itemd "sunrise" vnull),
        ("sunset", pyDictGetD itemd "sunset" vnull) ]))

/-- The full loop of `_process_daily_forecast`, dropping skipped items. -/
def processClimateList (dayOf : ℚ → ℤ) (today : ℤ) : List Val → Option (List Val)
  | [] => some []
  | item :: rest => do
    let r ← processClimateItem dayOf today item
    let tail ← processClimateList dayOf today rest
    match r with
    | none => pure tail
    | some e => pure (e :: tail)

/-- `WeatherAPI._process_daily_forecast` (`api.py` lines 378–433): climate
forecast to daily entries, skipping today, truncated to 7; any exception
is caught and yields `[]`. -/
def process_daily_forecast (dayOf : ℚ → ℤ) (today : ℤ) (data : Val) : List Val :=
  (do
    let d ← asDict? data
    let fl ← asList? (pyDictGetD d "list" (vlist []))
    let df ← processClimateList dayOf today fl
    pure (df.take 7)).getD []

/-- Per-date accumulator of `_process_5day_forecast_to_daily`
(`api.py` lines 461–472). -/
structure DaySummary where
  dt : Val
  temps : List Val
  conditions : List Val
  humidity : List Val
  pressure : List Val
  wind_speed : List Val
  clouds : List Val
  pop : Val
  icons : List Val

/-- Fresh accumulator for a newly seen date. -/
def mkDaySummary (dt : Val) : DaySummary :=
  { dt := dt, temps := [], conditions := [], humidity := [], pressure := [],
    wind_speed := [], clouds := [], pop := vnum 0, icons := [] }

/-- Lookup in the insertion-ordered date map. -/
def getAssoc (key : ℤ) : List (ℤ × DaySummary) → Option DaySummary
  | [] => none
  | (k, s) :: rest => if k = key then some s else getAssoc key rest

/-- Write-back into the insertion-ordered date map (append when new). -/
def setAssoc (key : ℤ) (v : DaySummary) : List (ℤ × DaySummary) → List (ℤ × DaySummary)
  | [] => [(key, v)]
  | (k, s) :: rest => if k = key then (k, v) :: rest else (k, s) :: setAssoc key v rest

/-- One iteration of the grouping loop of `_process_5day_forecast_to_daily`
(`api.py` lines 450–491): everything is nested under `if dt:`, today is
skipped, missing readings are accumulated as the source's `.get(..., 0)`
defaults. -/
def process5dayItem (dayOf : ℚ → ℤ) (today : ℤ) (acc : List (ℤ × DaySummary))
    (item : Val) : Option (List (ℤ × DaySummary)) := do
  let itemd ← asDict? item
  let dt := pyDictGetD itemd "dt" vnull
  if ¬ pyTruthy dt then pure acc
  else do
    let q ← asQ? dt
    let ds := dayOf q
    if ds = today then pure acc
    else do
      let s0 := (getAssoc ds acc).getD (mkDaySummary dt)
      let main ← asDict? (pyDictGetD itemd "main" (vdict []))
      let weather ← weatherHead? itemd
      let wind ← asDict? (pyDictGetD itemd "wind" (vdict []))
      let cloudsd ← asDict? (pyDictGetD itemd "clouds" (vdict []))
      let p := pyDictGetD itemd "pop" (vnum 0)
      let popGt ← pyGt p s0.pop
      let s1 : DaySummary :=
        { s0 with
          temps := s0.temps ++ [pyDictGetD main "temp" (vnum 0)],
          conditions := s0.conditions ++ [pyDictGetD weather "description" (vstr "")],
          humidity := s0.humidity ++ [pyDictGetD main "humidity" (vnum 0)],
          pressure := s0.pressure ++ [pyDictGetD main "pressure" (vnum 0)],
          wind_speed := s0.wind_speed ++ [pyDictGetD wind "speed" (vnum 0)],
          clouds := s0.clouds ++ [pyDictGetD cloudsd "all" (vnum 0)],
          icons := s0.icons ++ [pyDictGetD weather "icon" (vstr "")],
          pop := if popGt then p else s0.pop }
      pure (setAssoc ds s1 acc)

/-- Stable insertion into a key-sorted date list (`sorted(items())`;
dates modelled as integers, for which ISO-string order coincides with
numeric order). -/
def insertByKey (p : ℤ × DaySummary) : List (ℤ × DaySummary) → List (ℤ × DaySummary)
  | [] => [p]
  | q :: qs => if p.1 < q.1 then p :: q :: qs else q :: insertByKey p qs

/-- `sorted(daily_summaries.items())` (keys are unique, so the value
component never participates in the comparison). -/
def sortByKey (l : List (ℤ × DaySummary)) : List (ℤ × DaySummary) :=
  l.foldr insertByKey []

/-- Convert one accumulated date into a daily summary entry
(`api.py` lines 495–521).  `some none` mirrors `if temps:` skipping a
date without readings; `none` is a raised exception (caught at function
level). -/
def summaryToDaily (s : ℤ × DaySummary) : Option (Option Val) := do
  let data := s.2
  match data.temps with
  | [] => pure none
  | tv :: tvs => do
    let t0 ← asQ? tv
    let trest ← tvs.mapM asQ?
    let tsum := qsum (t0 :: trest)
    let tlen : ℚ := qofNat (t0 :: trest).length
    let mc ← mostCommonVal data.conditions
    let mi ← mostCommonVal data.icons
    let mcs ← asStr? mc
    let tok ← (pySplitWs mcs).head?
    let hum ←
      if data.humidity.isEmpty then pure vnull
      else do
        let hq ← pySumQ? data.humidity
        pure (vnum (qofInt (roundHalfEven (qdiv hq (qofNat data.humidity.length)))))
    let prs ←
      if data.pressure.isEmpty then pure vnull
      else do
        let pq ← pySumQ? data.pressure
        pure (vnum (qofInt (roundHalfEven (qdiv pq (qofNat data.pressure.length)))))
    let wnd ←
      if data.wind_speed.isEmpty then pure vnull
      else do
        let wq ← pySumQ? data.wind_speed
        pure (vnum (pyRound1q (qdiv wq (qofNat data.wind_speed.length))))
    let cld ←
      if data.clouds.isEmpty then pure vnull
      else do
        let cq ← pySumQ? data.clouds
        pure (vnum (qofInt (roundHalfEven (qdiv cq (qofNat data.clouds.length)))))
    pure (some (vdict
      [ ("dt", data.dt),
        ("temp_min", vnum (pyRound1q (listMinQ t0 trest))),
        ("temp_max", vnum (pyRound1q (listMaxQ t0 trest))),
        ("temp_day", vnum (pyRound1q (qdiv tsum tlen))),
        ("temp_night", vnum (pyRound1q (listMinQ t0 trest))),
        ("description", vstr (pyTitle mcs)),
        ("main", vstr (pyTitle tok)),
        ("icon", mi),
        ("humidity", hum),
        ("pressure", prs),
        ("wind_speed", wnd),
        ("wind_deg", vnull),
        ("clouds", cld),
        ("pop", data.pop),
        ("uv_index", vnull),
        ("sunrise", vnull),
        ("sunset", vnull) ]))

/-- Fold `summaryToDaily` over the sorted dates, dropping skipped ones. -/
def processSummaries : List (ℤ × DaySummary) → Option (List Val)
  | [] => some []
  | s :: rest => do
    let r ← summaryToDaily s
    let tail ← processSummaries rest
    match r with
    | none => pure tail
    | some e => pure (e :: tail)

/-- `WeatherAPI._process_5day_forecast_to_daily` (`api.py` lines 435–528);
any exception is caught and yields `[]`. -/
def process_5day_forecast_to_daily (dayOf : ℚ → ℤ) (today : ℤ) (data : Val) :
    List Val :=
  (do
    let d ← asDict? data
    let items ← asList? (pyDictGetD d "list" (vlist []))
    let summaries ← items.foldlM (process5dayItem dayOf today) []
    processSummaries (sortByKey summaries)).getD []

/-- Aggregates computed from the existing forecast before synthesising
placeholder days (`api.py` lines 550–566).  Note the source quirk kept
here: humidity/pressure sums skip falsy readings but still divide by the
full day count. -/
structure PlaceholderStats where
  avg_temp_min : ℚ
  avg_temp_max : ℚ
  avg_humidity : ℚ
  avg_pressure : ℚ
  most_common_condition : Val
  most_common_icon : Val
  last_day : List (String × Val)

/-- Compute `PlaceholderStats` from a non-empty existing forecast;
`none` is a raised exception (caught by the enclosing `try`). -/
def placeholderStats? (existing : List Val) : Option PlaceholderStats := do
  let dicts ← existing.mapM asDict?
  let tminSum ← pySumQ? (dicts.map (fun d => pyDictGetD d "temp_min" (vnum 70)))
  let tmaxSum ← pySumQ? (dicts.map (fun d => pyDictGetD d "temp_max" (vnum 80)))
  let humSum ← pySumQ? ((dicts.map (fun d => pyDictGetD d "humidity" vnull)).filter pyTruthy)
  let prsSum ← pySumQ? ((dicts.map (fun d => pyDictGetD d "pressure" vnull)).filter pyTruthy)
  let mc ← mostCommonVal (dicts.map (fun d => pyDictGetD d "main" (vstr "Clear")))
  let mi ← mostCommonVal (dicts.map (fun d => pyDictGetD d "icon" (vstr "01d")))
  let last ← dicts.getLast?
  let n : ℚ := qofNat existing.length
  pure
    { avg_temp_min := qdiv tminSum n
      avg_temp_max := qdiv tmaxSum n
      avg_humidity := qdiv humSum n
      avg_pressure := qdiv prsSum n
      most_common_condition := mc
      most_common_icon := mi
      last_day := last }

/-- One synthetic day in the non-empty-forecast branch (`api.py` lines
568–596): `curLen` is `len(extended_forecast)` at loop entry and `i` the
loop index for the drift term. -/
def placeholderItem (st : PlaceholderStats) (nowTs : ℤ) (curLen : Nat) (i : Nat) : Val :=
  let days_ahead : ℤ := (curLen : ℤ) + 1
  let future_ts : ℤ := nowTs + days_ahead * 86400
  let tv : ℚ := if i < 4 then qadd (qneg 2) (qmul (qofNat i) (mkRat 1 2)) else 0
  vdict
    [ ("dt", vnum (qofInt future_ts)),
      ("temp_min", vnum (pyRound1q (qadd st.avg_temp_min tv))),
      ("temp_max", vnum (pyRound1q (qadd st.avg_temp_max tv))),
      ("temp_day", vnum (pyRound1q (qadd (qdiv (qadd st.avg_temp_min st.avg_temp_max) 2) tv))),
      ("temp_night", vnum (pyRound1q (qadd st.avg_temp_min tv))),
      ("description", vstr ("Predicted " ++ pyStr st.most_common_condition)),
      ("main", st.most_common_condition),
      ("icon", st.most_common_icon),
      ("humidity", vnum (qofInt (roundHalfEven st.avg_humidity))),
      ("pressure", vnum (qofInt (roundHalfEven st.avg_pressure))),
      ("wind_speed", pyDictGetD st.last_day "wind_speed" (vnum 5)),
      ("wind_deg", pyDictGetD st.last_day "wind_deg" (vnum 0)),
      ("clouds", pyDictGetD st.last_day "clouds" (vnum 20)),
      ("pop", vnum (mkRat 1 10)),
      ("uv_index", vnull),
      ("sunrise", vnull),
      ("sunset", vnull) ]

/-- The placeholder construction loop: builds `count` synthetic days
starting at loop index `i` with `baseLen + i` entries already present. -/
def mkPlaceholders (st : PlaceholderStats) (nowTs : ℤ) (baseLen : Nat) :
    Nat → Nat → List Val
  | _, 0 => []
  | i, k + 1 =>
      placeholderItem st nowTs (baseLen + i) i :: mkPlaceholders st nowTs baseLen (i + 1) k

/-- One generic synthetic day for the empty-forecast branch
(`api.py` lines 599–622). -/
def genericPlaceholder (nowTs : ℤ) (i : Nat) : Val :=
  vdict
    [ ("dt", vnum (qofInt (nowTs + ((i : ℤ) + 1) * 86400))),
      ("temp_min", vnum 70),
      ("temp_max", vnum 80),
      ("temp_day", vnum 75),
      ("temp_night", vnum 65),
      ("description", vstr "Forecast Unavailable"),
      ("main", vstr "Unknown"),
      ("icon", vstr "01d"),
      ("humidity", vnum 50),
      ("pressure", vnum 1013),
      ("wind_speed", vnum 5),
      ("wind_deg", vnum 0),
      ("clouds", vnum 20),
      ("pop", vnum 0),
      ("uv_index", vnull),
      ("sunrise", vnull),
      ("sunset", vnull) ]

/-- The generic placeholder loop. -/
def mkGenericPlaceholders (nowTs : ℤ) : Nat → Nat → List Val
  | _, 0 => []
  | i, k + 1 => genericPlaceholder nowTs i :: mkGenericPlaceholders nowTs (i + 1) k

/-- Body of `_extend_forecast_with_placeholders` before its `except`
handler (`api.py` lines 541–624). -/
def extend_forecast_core (nowTs : ℤ) (existing : List Val) (target : Nat) :
    Option (List Val) :=
  if target ≤ existing.length then some (existing.take target)
  else
    let needed := target - existing.length
    if existing.isEmpty then some (existing ++ mkGenericPlaceholders nowTs 0 needed)
    else do
      let st ← placeholderStats? existing
      pure (existing ++ mkPlaceholders st nowTs existing.length 0 needed)

/-- `WeatherAPI._extend_forecast_with_placeholders` (`api.py` lines
530–628): on any exception the original list is returned unchanged. -/
def extend_forecast_with_placeholders (nowTs : ℤ) (existing : List Val)
    (target : Nat) : List Val :=
  (extend_forecast_core nowTs existing target).getD existing

/-! ## `src/core/api.py` — orchestration -/

/-- The four `_make_api_request` responses consumed by one
`fetch_comprehensive_weather` call, in call order. -/
structure ApiEnv where
  geocode : Val
  current : Val
  climate : Val
  fallback : Val

/-- Optional rational field of the cleaned record as a payload value. -/
def optQ (o : Option ℚ) : Val :=
  match o with
  | none => vnull
  | some q => vnum q

/-- Optional integer field of the cleaned record as a payload value. -/
def optZ (o : Option ℤ) : Val :=
  match o with
  | none => vnull
  | some z => vnum (qofInt z)

/-- Optional string field of the cleaned record as a payload value. -/
def optS (o : Option String) : Val :=
  match o with
  | none => vnull
  | some s => vstr s

/-- The `'current'` sub-dictionary of the comprehensive result
(`api.py` lines 347–363). -/
def currentDictOf (c : CleanedCurrent) : Val :=
  vdict
    [ ("temp", optQ c.temperature),
      ("feels_like", optQ c.feels_like),
      ("description", optS c.weather_description),
      ("main", optS c.weather_main),
      ("icon", optS c.weather_icon),
      ("humidity", optZ c.humidity),
      ("pressure", optQ c.pressure),
      ("wind_speed", optQ c.wind_speed),
      ("wind_deg", optZ c.wind_direction),
      ("visibility", optZ c.visibility),
      ("uv_index", optQ c.uv_index),
      ("clouds", optZ c.cloudiness),
      ("dt", optZ c.api_timestamp),
      ("sunrise", optZ c.sunrise),
      ("sunset", optZ c.sunset) ]

/-- The comprehensive result dictionary (`api.py` lines 346–373).
`cleaned_current.get('city', city)` and `...get('country', 'US')` always
find their keys in the cleaned record, so the caller-supplied defaults are
dead and the cleaned values (possibly `None`) are used. -/
def comprehensiveDict (c : CleanedCurrent) (forecast : List Val)
    (lat lon : Val) (state : String) : Val :=
  vdict
    [ ("current", currentDictOf c),
      ("forecast", vlist forecast),
      ("location", vdict
        [ ("name", optS c.city),
          ("state", vstr state),
          ("country", optS c.country),
          ("lat", lat),
          ("lon", lon) ]),
      ("api_source", vstr "openweathermap_coords_based") ]

/-- The 5-day fallback branch of `fetch_comprehensive_weather`
(`api.py` lines 321–343): aggregate the rolling forecast, pad to 7 days
when short, or fall back to an empty list. -/
def fallbackForecast (env : ApiEnv) (dayOf : ℚ → ℤ) (today : ℤ) (nowTs : ℤ) :
    Option (List Val) :=
  if pyTruthy env.fallback then
    match pyContains "error" env.fallback with
    | none => none
    | some false =>
        let df := process_5day_forecast_to_daily dayOf today env.fallback
        some (if df.length < 7 then extend_forecast_with_placeholders nowTs df 7 else df)
    | some true => some []
  else some []

/-- `WeatherAPI.fetch_comprehensive_weather` (`api.py` lines 259–376) over
an injected response environment.  The result is the returned value (a
comprehensive dictionary or one of the source's error dictionaries);
`none` is an uncaught exception, e.g. subscripting a non-dict `coords`. -/
def fetch_comprehensive_weather (env : ApiEnv) (units : String)
    (rules : ValidationRules) (dayOf : ℚ → ℤ) (today : ℤ) (nowTs : ℤ)
    (city state : String) : Option Val := do
  let coords ← get_coordinates env.geocode city state
  let coordsErr ← pyContains "error" coords
  if coordsErr then pure coords
  else do
    let lat ← pySubscript coords "lat"
    let lon ← pySubscript coords "lon"
    let curErr ← pyContains "error" env.current
    if curErr then pure env.current
    else
      if ¬ validate_basic_structure env.current then
        pure (errDict "Invalid current weather response structure")
      else
        match validate_and_clean_current_weather units rules env.current with
        | none => pure (errDict "Current weather data validation failed")
        | some cleaned => do
          let daily ←
            if pyTruthy env.climate then
              match pyContains "error" env.climate with
              | none => none
              | some false => some (process_daily_forecast dayOf today env.climate)
              | some true => fallbackForecast env dayOf today nowTs
            else fallbackForecast env dayOf today nowTs
          pure (comprehensiveDict cleaned daily lat lon state)

/-! ## Extraction helpers and concrete inputs used by the theorems -/

/-- The cleaned `city` field as `validate_and_clean_current_weather`
computes it (that is, `_clean_string(raw_data.get('name'))`). -/
def extractedCity (raw : Val) : Option String := do
  let rawd ← asDict? raw
  clean_string (pyDictGetD rawd "name" vnull)

/-- The cleaned `temperature` field as `validate_and_clean_current_weather`
computes it (`_clean_float(raw_data.get('main', \x7b\x7d).get('temp'))`);
`none` also covers a non-dict `main` entry, which makes the whole
extraction raise. -/
def extractedTemp (raw : Val) : Option ℚ := do
  let rawd ← asDict? raw
  let main_data ← asDict? (pyDictGetD rawd "main" (vdict []))
  clean_float (pyDictGetD main_data "temp" vnull)

/-- The cleaned `weather_description` field as
`validate_and_clean_current_weather` computes it. -/
def extractedDescription (raw : Val) : Option String := do
  let rawd ← asDict? raw
  let weather_data ← weatherHead? rawd
  clean_string (pyDictGetD weather_data "description" vnull)

/-- A current-conditions payload whose temperature is exactly 0 (inside
every documented bound table) and whose other required fields are present
and valid. -/
def payloadTempZero : Val :=
  vdict
    [ ("name", vstr "Denver"),
      ("main", vdict [("temp", vnum 0)]),
      ("weather", vlist [vdict [("description", vstr "clear sky")]]) ]

/-- The single geocoding hit used by the concrete scenarios. -/
def locDenver : List (String × Val) :=
  [ ("lat", vnum (mkRat 3974 100)),
    ("lon", vnum (qneg (mkRat 10499 100))),
    ("name", vstr "Denver"),
    ("state", vstr "CO"),
    ("country", vstr "US") ]

/-- A well-formed geocoding response with a single hit. -/
def geoDenver : Val := vlist [vdict locDenver]

/-- A well-formed current-conditions payload that passes validation. -/
def currentDenver : Val :=
  vdict
    [ ("name", vstr "Denver"),
      ("main", vdict [("temp", vnum (mkRat 752 10)), ("humidity", vnum 40), ("pressure", vnum 1013)]),
      ("weather", vlist
        [ vdict [("description", vstr "clear sky"), ("main", vstr "Clear"), ("icon", vstr "01d")] ]) ]

/-- An environment where geocoding and current conditions succeed but both
forecast tiers return error dictionaries. -/
def envTiersDown : ApiEnv :=
  { geocode := geoDenver, current := currentDenver,
    climate := errDict "climate down", fallback := errDict "fallback down" }

/-- A climate-tier forecast item that carries a weather description but no
temperature, humidity, pressure, wind or cloud data (and no `dt`, so the
today-exclusion test is not reached). -/
def climateItemNoTemp : List (String × Val) :=
  [("weather", vlist [vdict [("description", vstr "clear sky")]])]

/-- A climate-tier payload containing only `climateItemNoTemp`. -/
def climateNoTemp : Val := vdict [("list", vlist [vdict climateItemNoTemp])]

/-- A 5-day-tier payload with one reading that has a temperature but no
humidity/pressure/wind/cloud data. -/
def fiveDayNoHumidity : Val :=
  vdict [("list", vlist
    [ vdict
        [ ("dt", vnum 100),
          ("main", vdict [("temp", vnum 50)]),
          ("weather", vlist [vdict [("description", vstr "clear sky"), ("icon", vstr "01d")]]) ] ])]

/-- Two already-processed forecast days, used to exercise the placeholder
extension. -/
def twoForecastDays : List Val :=
  [ vdict
      [ ("dt", vnum 100), ("temp_min", vnum 50), ("temp_max", vnum 60),
        ("main", vstr "Clear"), ("icon", vstr "01d"),
        ("humidity", vnum 40), ("pressure", vnum 1000),
        ("wind_speed", vnum 3), ("wind_deg", vnum 90), ("clouds", vnum 10) ],
    vdict
      [ ("dt", vnum 200), ("temp_min", vnum 52), ("temp_max", vnum 64),
        ("main", vstr "Clear"), ("icon", vstr "01d"),
        ("humidity", vnum 50), ("pressure", vnum 1010),
        ("wind_speed", vnum 5), ("wind_deg", vnum 180), ("clouds", vnum 20) ] ]

/-- A transport that answers 401 on every attempt. -/
def transport401 : Nat → HttpOutcome := fun _ => .status 401 vnull

/-- A transport that answers 404 on every attempt. -/
def transport404 : Nat → HttpOutcome := fun _ => .status 404 vnull

/-- A transport that times out twice, then succeeds. -/
def transportFailsTwice : Nat → HttpOutcome :=
  fun k => if k < 2 then .timeout else .status 200 (vstr "payload")

/-- The extraction of `day_data.get('temp', \x7b\x7d)` as a dict, the step
guarding the temperature validity test in `_validate_daily_forecast_day`. -/
def tempDictOf (day : Val) : Option (List (String × Val)) := do
  let dayd ← asDict? day
  asDict? (pyDictGetD dayd "temp" (vdict []))

/-- The success dictionary `get_coordinates` builds from the first
geocoding hit. -/
def coordsDictOf (loc : List (String × Val)) (city state : String) : Val :=
  vdict
    [ ("lat", pyDictGetD loc "lat" vnull),
      ("lon", pyDictGetD loc "lon" vnull),
      ("name", pyDictGetD loc "name" (vstr city)),
      ("state", pyDictGetD loc "state" (vstr state)),
      ("country", pyDictGetD loc "country" (vstr "US")) ]

/-- A forecast day whose humidity (150) is out of range while everything
else is valid. -/
def lenientDay : Val :=
  vdict
    [ ("dt", vnum 5),
      ("temp", vdict [("min", vnum 50), ("max", vnum 70), ("day", vnum 60)]),
      ("weather", vlist
        [ vdict [("description", vstr "light rain"), ("main", vstr "Rain"), ("icon", vstr "10d")] ]),
      ("humidity", vnum 150),
      ("pressure", vnum 1000) ]

/-- A forecast day whose maximum temperature (500) is out of range. -/
def badTempDay : Val :=
  vdict
    [ ("temp", vdict [("min", vnum 50), ("max", vnum 500)]),
      ("weather", vlist [vdict [("description", vstr "cold")]]) ]

/-- The cleaned record `validate_and_clean_current_weather` produces from
`currentDenver` (visibility comes from the source's 10000 default). -/
def cleanedDenver : CleanedCurrent :=
  { api_timestamp := none, city := some "Denver", country := none,
    latitude := none, longitude := none,
    temperature := some (mkRat 752 10), feels_like := none,
    temp_min := none, temp_max := none,
    humidity := some 40, pressure := some 1013,
    sea_level := none, ground_level := none,
    weather_main := some "Clear", weather_description := some "clear sky",
    weather_icon := some "01d",
    wind_speed := none, wind_direction := none, wind_gust := none,
    cloudiness := none, visibility := some 10000, uv_index := none,
    sunrise := none, sunset := none }

/-! ## Theorems for the claims -/

/-- **C1** (evidence for the code bug): the payload `payloadTempZero` has
all three required fields present, its temperature cleans to exactly 0,
and 0 lies inside the imperial bound table, yet
`validate_and_clean_current_weather` returns `None`: the required-field
check `not data.get(field)` conflates the in-range temperature `0.0` with
a missing temperature, so the accept-iff-in-range property fails at 0. -/
theorem C1_zero_in_range_yet_rejected :
    validate_and_clean_current_weather "imperial" defaultRules payloadTempZero = none ∧
    extractedTemp payloadTempZero = some 0 ∧
    extractedCity payloadTempZero = some "Denver" ∧
    extractedDescription payloadTempZero = some "clear sky" ∧
    qle defaultRules.min_temperature_fahrenheit 0 = true ∧
    qle 0 defaultRules.max_temperature_fahrenheit = true :=
  ⟨rfl, rfl, rfl, rfl, rfl, rfl⟩

/-- **C10**: any raw payload whose temperature cleans to the float value
exactly 0 is rejected by `validate_and_clean_current_weather`, whatever
the unit system and rules: the required-field check tests Python
truthiness of the cleaned value, and `0.0` is falsy. -/
theorem C10_zero_temperature_treated_as_missing (unit : String)
    (rules : ValidationRules) (raw : Val)
    (h : extractedTemp raw = some 0) :
    validate_and_clean_current_weather unit rules raw = none := by
  unfold extractedTemp at h
  simp only [Option.bind_eq_bind, Option.bind_eq_some] at h
  obtain ⟨rawd, hraw, main_data, hmain, htemp⟩ := h
  unfold validate_and_clean_current_weather
  simp only [Option.bind_eq_bind]
  rw [hraw]
  simp only [Option.some_bind]
  rw [hmain]
  simp only [Option.some_bind]
  cases hw : weatherHead? rawd with
  | none => rfl
  | some weather_data =>
    simp only [Option.some_bind]
    cases h1 : asDict? (pyDictGetD rawd "wind" (vdict [])) with
    | none => rfl
    | some wind_data =>
      simp only [Option.some_bind]
      cases h2 : asDict? (pyDictGetD rawd "clouds" (vdict [])) with
      | none => rfl
      | some clouds_data =>
        simp only [Option.some_bind]
        cases h3 : asDict? (pyDictGetD rawd "sys" (vdict [])) with
        | none => rfl
        | some sys_data =>
          simp only [Option.some_bind]
          cases h4 : asDict? (pyDictGetD rawd "coord" (vdict [])) with
          | none => rfl
          | some coord_data =>
            simp only [Option.some_bind]
            rw [if_neg]
            intro hv
            rw [validate_weather_data_cleaned] at hv
            simp [htemp, falsyOptQ] at hv

/-- **C10 witness**: the concrete zero-temperature payload satisfies the
hypothesis and is rejected. -/
theorem C10_witness :
    extractedTemp payloadTempZero = some 0 ∧
    validate_and_clean_current_weather "metric" defaultRules payloadTempZero = none :=
  ⟨rfl, C10_zero_temperature_treated_as_missing "metric" defaultRules payloadTempZero rfl⟩

/-- **C3**: if any required field (place name, temperature, weather
description) is absent from the raw payload or cleans to `None`,
`validate_and_clean_current_weather` returns `None`, regardless of the
other fields. -/
theorem C3_missing_required_field_rejects_record (unit : String)
    (rules : ValidationRules) (raw : Val)
    (h : extractedCity raw = none ∨ extractedTemp raw = none ∨
      extractedDescription raw = none) :
    validate_and_clean_current_weather unit rules raw = none := by
  unfold validate_and_clean_current_weather
  simp only [Option.bind_eq_bind]
  cases hraw : asDict? raw with
  | none => rfl
  | some rawd =>
    simp only [Option.some_bind]
    unfold extractedCity extractedTemp extractedDescription at h
    simp only [Option.bind_eq_bind, hraw, Option.some_bind] at h
    cases hmain : asDict? (pyDictGetD rawd "main" (vdict [])) with
    | none => rfl
    | some main_data =>
      simp only [Option.some_bind]
      cases hw : weatherHead? rawd with
      | none => rfl
      | some weather_data =>
        simp only [Option.some_bind]
        cases h1 : asDict? (pyDictGetD rawd "wind" (vdict [])) with
        | none => rfl
        | some wind_data =>
          simp only [Option.some_bind]
          cases h2 : asDict? (pyDictGetD rawd "clouds" (vdict [])) with
          | none => rfl
          | some clouds_data =>
            simp only [Option.some_bind]
            cases h3 : asDict? (pyDictGetD rawd "sys" (vdict [])) with
            | none => rfl
            | some sys_data =>
              simp only [Option.some_bind]
              cases h4 : asDict? (pyDictGetD rawd "coord" (vdict [])) with
              | none => rfl
              | some coord_data =>
                simp only [Option.some_bind]
                rw [if_neg]
                intro hv
                rw [validate_weather_data_cleaned] at hv
                simp only [hmain, hw, Option.some_bind] at h
                rcases h with hc | ht | hd
                · simp [hc, falsyOptStr] at hv
                · simp [ht, falsyOptQ] at hv
                · simp [hd, falsyOptStr] at hv

/-- **C3 witness**: a payload with valid humidity, pressure, coordinates
and description but no place name is rejected. -/
theorem C3_witness :
    extractedCity
        (vdict
          [ ("main", vdict [("temp", vnum 50), ("humidity", vnum 40), ("pressure", vnum 1013)]),
            ("coord", vdict [("lat", vnum 10), ("lon", vnum 20)]),
            ("weather", vlist [vdict [("description", vstr "clear sky")]]) ]) = none ∧
    validate_and_clean_current_weather "imperial" defaultRules
        (vdict
          [ ("main", vdict [("temp", vnum 50), ("humidity", vnum 40), ("pressure", vnum 1013)]),
            ("coord", vdict [("lat", vnum 10), ("lon", vnum 20)]),
            ("weather", vlist [vdict [("description", vstr "clear sky")]]) ]) = none :=
  ⟨rfl, C3_missing_required_field_rejects_record "imperial" defaultRules _ (Or.inl rfl)⟩

/-- **C4**: per-day forecast cleaning is field-level lenient for humidity —
a present but out-of-range humidity only nulls that field and the day is
kept with every other field populated from the raw data — but strict for
temperatures: an invalid min or max drops the whole day. -/
theorem C4_forecast_day_leniency_asymmetry (unit : String) (rules : ValidationRules) :
    (∀ (day : Val) (dayd td wd : List (String × Val)) (ws : List Val)
      (tmin tmax : ℚ) (tdayv tnightv : Val) (ds : String) (hum : ℚ),
      asDict? day = some dayd →
      asDict? (pyDictGetD dayd "temp" (vdict [])) = some td →
      pyDictGetD td "min" vnull = vnum tmin →
      pyDictGetD td "max" vnull = vnum tmax →
      is_valid_temperature unit rules (vnum tmin) = true →
      is_valid_temperature unit rules (vnum tmax) = true →
      pyDictGetD dayd "weather" (vlist []) = vlist (vdict wd :: ws) →
      pyDictGetD wd "description" (vstr "") = vstr ds →
      roundOrNull? (pyDictGetD td "day" vnull) = some tdayv →
      roundOrNull? (pyDictGetD td "night" vnull) = some tnightv →
      pyDictGetD dayd "humidity" vnull = vnum hum →
      is_valid_humidity rules (vnum hum) = false →
      validate_daily_forecast_day unit rules day = some (vdict
        [ ("dt", pyDictGetD dayd "dt" vnull),
          ("temp_min", vnum (pyRound1q tmin)),
          ("temp_max", vnum (pyRound1q tmax)),
          ("temp_day", tdayv),
          ("temp_night", tnightv),
          ("description", vstr (pyTitle ds)),
          ("main", pyDictGetD wd "main" (vstr "")),
          ("icon", pyDictGetD wd "icon" (vstr "")),
          ("humidity", vnull),
          ("pressure",
            if is_valid_pressure rules (pyDictGetD dayd "pressure" vnull) then
              pyDictGetD dayd "pressure" vnull else vnull),
          ("wind_speed",
            if is_valid_wind_speed unit rules (pyDictGetD dayd "wind_speed" vnull) then
              pyDictGetD dayd "wind_speed" vnull else vnull),
          ("wind_deg", pyDictGetD dayd "wind_deg" vnull),
          ("clouds", pyDictGetD dayd "clouds" vnull),
          ("pop", pyDictGetD dayd "pop" vnull),
          ("uv_index", pyDictGetD dayd "uvi" vnull),
          ("sunrise", pyDictGetD dayd "sunrise" vnull),
          ("sunset", pyDictGetD dayd "sunset" vnull) ])) ∧
    (∀ (day : Val) (td : List (String × Val)),
      tempDictOf day = some td →
      (is_valid_temperature unit rules (pyDictGetD td "min" vnull) = false ∨
        is_valid_temperature unit rules (pyDictGetD td "max" vnull) = false) →
      validate_daily_forecast_day unit rules day = none) := by
  constructor
  · intro day dayd td wd ws tmin tmax tdayv tnightv ds hum hday htd hmin hmax hvmin hvmax
      hwl hdesc hd hn hhum hinv
    unfold validate_daily_forecast_day
    simp only [Option.bind_eq_bind, hday, Option.some_bind, htd, hmin, hmax, hwl, hdesc,
      hd, hn, hhum]
    rw [if_neg]
    · simp only [pyTruthy, List.isEmpty, Bool.not_false, if_true, pyIndex, List.get?,
        Option.some_bind, asDict?, asStr?, pyRound1Val, hinv]
      simp [hdesc]
    · simp [hvmin, hvmax]
  · intro day td htd hbad
    unfold tempDictOf at htd
    simp only [Option.bind_eq_bind, Option.bind_eq_some] at htd
    obtain ⟨dayd, hday, htd⟩ := htd
    unfold validate_daily_forecast_day
    simp only [Option.bind_eq_bind, hday, Option.some_bind, htd]
    rw [if_pos]
    rcases hbad with hb | hb
    · exact Or.inl (by simp [hb])
    · exact Or.inr (by simp [hb])

/-- **C4 witness**: a day with humidity 150 is kept with `humidity` nulled
and the remaining fields populated; a day with max temperature 500°F is
dropped. -/
theorem C4_witness :
    validate_daily_forecast_day "imperial" defaultRules lenientDay = some (vdict
      [ ("dt", vnum 5),
        ("temp_min", vnum 50),
        ("temp_max", vnum 70),
        ("temp_day", vnum 60),
        ("temp_night", vnull),
        ("description", vstr "Light Rain"),
        ("main", vstr "Rain"),
        ("icon", vstr "10d"),
        ("humidity", vnull),
        ("pressure", vnum 1000),
        ("wind_speed", vnull),
        ("wind_deg", vnull),
        ("clouds", vnull),
        ("pop", vnull),
        ("uv_index", vnull),
        ("sunrise", vnull),
        ("sunset", vnull) ]) ∧
    validate_daily_forecast_day "imperial" defaultRules badTempDay = none := by
  constructor
  · exact (C4_forecast_day_leniency_asymmetry "imperial" defaultRules).1 lenientDay
      _ _ _ _ 50 70 (vnum 60) vnull "light rain" 150
      rfl rfl rfl rfl rfl rfl rfl rfl rfl rfl rfl rfl
  · exact (C4_forecast_day_leniency_asymmetry "imperial" defaultRules).2 badTempDay
      _ rfl (Or.inr rfl)

/-- **C5** (evidence for the code bug): on an empty geocoding result set,
`get_coordinates` returns the raw empty list — the truthiness test
`if raw_data and ...` short-circuits on the empty (falsy) list, so the
`Location not found` error branch is dead code and the returned value
carries no error marker.  On a non-empty result the provider-echoed
display name ("Denver"), not the caller's spelling ("denvr"), is returned
with the first result's coordinates. -/
theorem C5_empty_geocode_returns_list_not_error :
    get_coordinates (vlist []) "Denver" "CO" = some (vlist []) ∧
    pyContains "error" (vlist []) = some false ∧
    get_coordinates geoDenver "denvr" "co" = some (vdict
      [ ("lat", vnum (mkRat 3974 100)),
        ("lon", vnum (qneg (mkRat 10499 100))),
        ("name", vstr "Denver"),
        ("state", vstr "CO"),
        ("country", vstr "US") ]) :=
  ⟨rfl, rfl, rfl⟩

/-- **C6**: a 401 (respectively 404) response on the first attempt makes
`_make_api_request` return the invalid-key (respectively not-found) error
dictionary immediately: one transport attempt, zero retries, zero backoff
sleeps. -/
theorem C6_terminal_statuses_no_retry (m : Nat) (t : Nat → HttpOutcome) (b : Val)
    (hm : 0 < m) :
    (t 0 = .status 401 b →
      make_api_request m t =
        { result := errDict "Invalid API key", sleeps := [], attempts := 1 }) ∧
    (t 0 = .status 404 b →
      make_api_request m t =
        { result := errDict "Location not found", sleeps := [], attempts := 1 }) := by
  obtain ⟨r, rfl⟩ : ∃ r, m = r + 1 := ⟨m - 1, by omega⟩
  constructor <;> intro h <;>
    · unfold make_api_request makeApiRequestLoop
      rw [h]
      simp

/-- **C6 witness**. -/
theorem C6_witness :
    make_api_request 3 transport401 =
      { result := errDict "Invalid API key", sleeps := [], attempts := 1 } ∧
    make_api_request 3 transport404 =
      { result := errDict "Location not found", sleeps := [], attempts := 1 } :=
  ⟨(C6_terminal_statuses_no_retry 3 transport401 vnull (by decide)).1 rfl,
   (C6_terminal_statuses_no_retry 3 transport404 vnull (by decide)).2 rfl⟩

/-- Unrolled specification of the retry loop: starting at attempt `a` with
`r` iterations left, `n` retryable outcomes followed by a 200 yield the
payload with one clamped-table backoff sleep per failed attempt. -/
theorem makeApiRequestLoop_spec (t : Nat → HttpOutcome) (m : Nat) (body : Val) :
    ∀ (n a r : Nat), n < r →
      (∀ k, k < n → retryableOutcome (t (a + k)) = true) →
      (∀ k, k < n → a + k < m - 1) →
      t (a + n) = .status 200 body →
      makeApiRequestLoop t m a r =
        { result := body,
          sleeps := (List.range n).map
            (fun k => retryDelays.getD (min (a + k) (retryDelays.length - 1)) 0),
          attempts := n + 1 } := by
  intro n
  induction n with
  | zero =>
    intro a r hr _ _ hsucc
    obtain ⟨r', rfl⟩ : ∃ r', r = r' + 1 := ⟨r - 1, by omega⟩
    unfold makeApiRequestLoop
    rw [Nat.add_zero] at hsucc
    rw [hsucc]
    simp
  | succ n ih =>
    intro a r hr hretry hbound hsucc
    obtain ⟨r', rfl⟩ : ∃ r', r = r' + 1 := ⟨r - 1, by omega⟩
    have h0 : retryableOutcome (t a) = true := by
      have := hretry 0 (Nat.succ_pos n)
      simpa using this
    have hb0 : a < m - 1 := by
      have := hbound 0 (Nat.succ_pos n)
      simpa using this
    have hrec := ih (a + 1) r' (by omega)
      (fun k hk => by
        have := hretry (k + 1) (by omega)
        rw [show a + (k + 1) = a + 1 + k by omega] at this
        exact this)
      (fun k hk => by
        have := hbound (k + 1) (by omega)
        omega)
      (by
        rw [show a + 1 + n = a + (n + 1) by omega]
        exact hsucc)
    have hmap : (List.range (n + 1)).map
        (fun k => retryDelays.getD (min (a + k) (retryDelays.length - 1)) 0) =
        retryDelays.getD (min a (retryDelays.length - 1)) 0 ::
          (List.range n).map
            (fun k => retryDelays.getD (min (a + 1 + k) (retryDelays.length - 1)) 0) := by
      rw [List.range_succ_eq_map, List.map_cons, List.map_map]
      simp only [Nat.add_zero]
      refine congrArg _ (List.map_congr_left ?_)
      intro k _
      simp only [Function.comp]
      rw [show a + (k + 1) = a + 1 + k by omega]
    unfold makeApiRequestLoop
    cases ht : t a with
    | timeout =>
      dsimp only
      rw [if_pos hb0, hrec]
      dsimp only
      rw [hmap]
    | connError =>
      dsimp only
      rw [if_pos hb0, hrec]
      dsimp only
      rw [hmap]
    | reqError =>
      dsimp only
      rw [if_pos hb0, hrec]
      dsimp only
      rw [hmap]
    | status code b2 =>
      rw [ht] at h0
      simp only [retryableOutcome, Bool.and_eq_true, decide_eq_true_eq] at h0
      obtain ⟨⟨⟨hc200, hc401⟩, hc404⟩, hc429⟩ := h0
      dsimp only
      rw [if_neg hc200, if_neg hc401, if_neg hc404, if_neg hc429, if_pos hb0, hrec]
      dsimp only
      rw [hmap]

/-- **C7**: if the transport is retryable on the first `n` attempts and
succeeds with HTTP 200 on attempt `n` (with `n < maxRetries`),
`_make_api_request` returns the success payload after exactly `n` backoff
sleeps, the `k`-th sleep (0-based) being `retry_delays[min(k, len-1)]` —
the `[1, 2, 4]` table clamped to its last entry. -/
theorem C7_backoff_schedule (t : Nat → HttpOutcome) (m n : Nat) (body : Val)
    (hnm : n < m)
    (hretry : ∀ k, k < n → retryableOutcome (t k) = true)
    (hsucc : t n = .status 200 body) :
    make_api_request m t =
      { result := body,
        sleeps := (List.range n).map
          (fun k => retryDelays.getD (min k (retryDelays.length - 1)) 0),
        attempts := n + 1 } := by
  have := makeApiRequestLoop_spec t m body n 0 m hnm
    (fun k hk => by simpa using hretry k hk)
    (fun k hk => by omega)
    (by simpa using hsucc)
  simpa using this

/-- **C7 witness**: two timeouts then success yields the payload after
exactly the sleeps `[1, 2]`. -/
theorem C7_witness :
    make_api_request 3 transportFailsTwice =
      { result := vstr "payload", sleeps := [1, 2], attempts := 3 } :=
  C7_backoff_schedule transportFailsTwice 3 2 (vstr "payload")
    (by decide) (by decide) rfl

/-- **C8**: when geocoding succeeds, current conditions validate, and both
forecast tiers yield no usable data (falsy or error-marked responses), the
orchestrator returns a populated comprehensive record whose forecast is
the empty list and which carries no error marker — degraded success, not
an error. -/
theorem C8_degraded_success_empty_forecast (units : String) (rules : ValidationRules)
    (dayOf : ℚ → ℤ) (today nowTs : ℤ) (city state : String)
    (loc : List (String × Val)) (current climate fallback : Val)
    (c : CleanedCurrent)
    (hcurNoErr : pyContains "error" current = some false)
    (hbasic : validate_basic_structure current = true)
    (hclean : validate_and_clean_current_weather units rules current = some c)
    (hclimate : pyTruthy climate = false ∨ pyContains "error" climate = some true)
    (hfallback : pyTruthy fallback = false ∨ pyContains "error" fallback = some true) :
    fetch_comprehensive_weather
        { geocode := vlist [vdict loc], current := current,
          climate := climate, fallback := fallback }
        units rules dayOf today nowTs city state =
      some (comprehensiveDict c []
        (pyDictGetD loc "lat" vnull) (pyDictGetD loc "lon" vnull) state) ∧
    pySubscript (comprehensiveDict c []
        (pyDictGetD loc "lat" vnull) (pyDictGetD loc "lon" vnull) state) "forecast" =
      some (vlist []) ∧
    pyContains "error" (comprehensiveDict c []
        (pyDictGetD loc "lat" vnull) (pyDictGetD loc "lon" vnull) state) = some false ∧
    pySubscript (comprehensiveDict c []
        (pyDictGetD loc "lat" vnull) (pyDictGetD loc "lon" vnull) state) "current" =
      some (currentDictOf c) := by
  refine ⟨?_, rfl, rfl, rfl⟩
  have hgeo : get_coordinates (vlist [vdict loc]) city state =
      some (coordsDictOf loc city state) := rfl
  have hCE : pyContains "error" (coordsDictOf loc city state) = some false := rfl
  have hLat : pySubscript (coordsDictOf loc city state) "lat" =
      some (pyDictGetD loc "lat" vnull) := rfl
  have hLon : pySubscript (coordsDictOf loc city state) "lon" =
      some (pyDictGetD loc "lon" vnull) := rfl
  have hfb : fallbackForecast
      { geocode := vlist [vdict loc], current := current,
        climate := climate, fallback := fallback } dayOf today nowTs = some [] := by
    unfold fallbackForecast
    dsimp only
    cases hft : pyTruthy fallback with
    | false => rw [if_neg (by simp [hft])]
    | true =>
      rw [if_pos (by simp [hft])]
      rcases hfallback with hf | hf
      · rw [hft] at hf
        exact absurd hf (by simp)
      · rw [hf]
  unfold fetch_comprehensive_weather
  simp only [Option.bind_eq_bind, hgeo, Option.some_bind, hCE, hLat, hLon, hcurNoErr,
    hbasic, hclean]
  simp only [Bool.false_eq_true, if_false, not_true, Option.some_bind]
  rcases hclimate with hc | hc
  · rw [if_neg (by simp [hc]), hfb]
    rfl
  · by_cases hct : pyTruthy climate = true
    · rw [if_pos hct, hc, hfb]
      rfl
    · rw [if_neg (by simp [hct]), hfb]
      rfl

/-- **C8 witness**: a fully concrete run — Denver geocoding hit, valid
current conditions, both tiers answering error dictionaries — returns the
populated record with the empty forecast. -/
theorem C8_witness :
    fetch_comprehensive_weather envTiersDown "imperial" defaultRules
        (fun _ => 1) 0 1000 "Denver" "CO" =
      some (comprehensiveDict cleanedDenver []
        (vnum (mkRat 3974 100)) (vnum (qneg (mkRat 10499 100))) "CO") :=
  (C8_degraded_success_empty_forecast "imperial" defaultRules (fun _ => 1) 0 1000
    "Denver" "CO" locDenver currentDenver (errDict "climate down")
    (errDict "fallback down") cleanedDenver
    rfl rfl rfl (Or.inr rfl) (Or.inr rfl)).1

/-- **C2 counterexample**: with both forecast tiers failing (a combination
yielding 0 < 7 valid days), the orchestrator's forecast is the empty
list — 0 entries, not the claimed 7 placeholder-extended entries (the
placeholder extension runs only inside the 5-day fallback branch), and
consequently no entry flagged `isSynthetic` exists at all. -/
theorem C2_counterexample_no_padding :
    (fetch_comprehensive_weather envTiersDown "imperial" defaultRules
        (fun _ => 1) 0 1000 "Denver" "CO").bind (fun v => pySubscript v "forecast") =
      some (vlist []) ∧
    ((fetch_comprehensive_weather envTiersDown "imperial" defaultRules
        (fun _ => 1) 0 1000 "Denver" "CO").bind (fun v => pySubscript v "forecast")).bind
      pyLen = some 0 ∧
    (0 : Nat) ≠ 7 :=
  ⟨rfl, rfl, by decide⟩

theorem mkPlaceholders_length (st : PlaceholderStats) (nowTs : ℤ) (baseLen : Nat) :
    ∀ (i k : Nat), (mkPlaceholders st nowTs baseLen i k).length = k := by
  intro i k
  induction k generalizing i with
  | zero => rfl
  | succ k ih => simp [mkPlaceholders, ih]

theorem mkPlaceholders_no_flag (st : PlaceholderStats) (nowTs : ℤ) (baseLen : Nat) :
    ∀ (i k : Nat) (e : Val), e ∈ mkPlaceholders st nowTs baseLen i k →
      pySubscript e "isSynthetic" = none := by
  intro i k
  induction k generalizing i with
  | zero => intro e he; cases he
  | succ k ih =>
    intro e he
    rcases List.mem_cons.1 he with rfl | htail
    · rfl
    · exact ih (i + 1) e htail

theorem mkGenericPlaceholders_length (nowTs : ℤ) :
    ∀ (i k : Nat), (mkGenericPlaceholders nowTs i k).length = k := by
  intro i k
  induction k generalizing i with
  | zero => rfl
  | succ k ih => simp [mkGenericPlaceholders, ih]

theorem mkGenericPlaceholders_no_flag (nowTs : ℤ) :
    ∀ (i k : Nat) (e : Val), e ∈ mkGenericPlaceholders nowTs i k →
      pySubscript e "isSynthetic" = none := by
  intro i k
  induction k generalizing i with
  | zero => intro e he; cases he
  | succ k ih =>
    intro e he
    rcases List.mem_cons.1 he with rfl | htail
    · rfl
    · exact ih (i + 1) e htail

/-- **C2 amended**: only `_extend_forecast_with_placeholders` pads — when
its body completes without exception on fewer than 7 days with target 7,
the result has exactly 7 entries, but the appended placeholder entries
carry no `isSynthetic` key (no field marks them synthetic; they are
recognisable only by their "Predicted ..."/"Forecast Unavailable"
descriptions). -/
theorem C2_extend_pads_to_seven_without_flag (nowTs : ℤ) (existing out : List Val)
    (hlen : existing.length < 7)
    (hcore : extend_forecast_core nowTs existing 7 = some out) :
    out.length = 7 ∧
    ∀ e ∈ out.drop existing.length, pySubscript e "isSynthetic" = none := by
  unfold extend_forecast_core at hcore
  rw [if_neg (by omega)] at hcore
  cases hemp : existing.isEmpty with
  | true =>
    rw [hemp] at hcore
    simp only [if_true] at hcore
    have hnil : existing = [] := List.isEmpty_iff.1 hemp
    subst hnil
    simp only [List.nil_append, Option.some_inj] at hcore
    subst hcore
    refine ⟨mkGenericPlaceholders_length nowTs 0 7, ?_⟩
    intro e he
    exact mkGenericPlaceholders_no_flag nowTs 0 7 e (by simpa using he)
  | false =>
    rw [hemp] at hcore
    simp only [Bool.false_eq_true, if_false, Option.bind_eq_bind, Option.bind_eq_some]
      at hcore
    obtain ⟨st, hst, hout⟩ := hcore
    have hout2 : existing ++ mkPlaceholders st nowTs existing.length 0
        (7 - existing.length) = out := by simpa using hout
    subst hout2
    constructor
    · rw [List.length_append, mkPlaceholders_length]
      omega
    · intro e he
      rw [List.drop_left] at he
      exact mkPlaceholders_no_flag st nowTs existing.length 0 (7 - existing.length) e he

/-- **C2 witness**: two real days extend to exactly 7 entries and the
appended entries carry no `isSynthetic` key. -/
theorem C2_witness :
    (extend_forecast_with_placeholders 1000 twoForecastDays 7).length = 7 :=
  (C2_extend_pads_to_seven_without_flag 1000 twoForecastDays
    (extend_forecast_with_placeholders 1000 twoForecastDays 7) (by decide) rfl).1

/-- **C9 counterexample**: the climate-tier processor substitutes the
sentinel 0 for missing temperature data: a forecast item with no `temp`
entry at all (and no rain/snow) produces a daily entry whose
temp_min/temp_max/temp_day/temp_night are all the number 0, and whose
`pop` is the number 0 — not null. -/
theorem C9_counterexample_zero_sentinel :
    dlookup climateItemNoTemp "temp" = none ∧
    process_daily_forecast (fun _ => 1) 0 climateNoTemp =
      [ vdict
          [ ("dt", vnull),
            ("temp_min", vnum 0),
            ("temp_max", vnum 0),
            ("temp_day", vnum 0),
            ("temp_night", vnum 0),
            ("description", vstr "Clear Sky"),
            ("main", vstr ""),
            ("icon", vstr ""),
            ("humidity", vnull),
            ("pressure", vnull),
            ("wind_speed", vnull),
            ("wind_deg", vnull),
            ("clouds", vnull),
            ("pop", vnum 0),
            ("uv_index", vnull),
            ("sunrise", vnull),
            ("sunset", vnull) ] ] :=
  ⟨rfl, rfl⟩

/-- **C9 amended**: the default policy the processors actually implement.
In `_process_daily_forecast`, missing temperature min/max/day/night
default to 0 and `pop` defaults missing rain/snow to 0, while missing
humidity/pressure/wind/cloud data pass through as null and uv_index is
always null (first conjunct, for any weather description and any clock).
In `_process_5day_forecast_to_daily`, readings missing from an item enter
the per-day aggregates as 0, so a day whose only item lacks
humidity/pressure/wind/clouds reports the sentinel 0 for each of them
(second conjunct). -/
theorem C9_amended_zero_defaults (dayOf : ℚ → ℤ) (today : ℤ) (s : String) :
    process_daily_forecast dayOf today
        (vdict [("list", vlist [vdict [("weather", vlist [vdict [("description", vstr s)]])]])]) =
      [ vdict
          [ ("dt", vnull),
            ("temp_min", vnum 0),
            ("temp_max", vnum 0),
            ("temp_day", vnum 0),
            ("temp_night", vnum 0),
            ("description", vstr (pyTitle s)),
            ("main", vstr ""),
            ("icon", vstr ""),
            ("humidity", vnull),
            ("pressure", vnull),
            ("wind_speed", vnull),
            ("wind_deg", vnull),
            ("clouds", vnull),
            ("pop", vnum 0),
            ("uv_index", vnull),
            ("sunrise", vnull),
            ("sunset", vnull) ] ] ∧
    process_5day_forecast_to_daily (fun _ => 1) 0 fiveDayNoHumidity =
      [ vdict
          [ ("dt", vnum 100),
            ("temp_min", vnum 50),
            ("temp_max", vnum 50),
            ("temp_day", vnum 50),
            ("temp_night", vnum 50),
            ("description", vstr "Clear Sky"),
            ("main", vstr "Clear"),
            ("icon", vstr "01d"),
            ("humidity", vnum 0),
            ("pressure", vnum 0),
            ("wind_speed", vnum 0),
            ("wind_deg", vnull),
            ("clouds", vnum 0),
            ("pop", vnum 0),
            ("uv_index", vnull),
            ("sunrise", vnull),
            ("sunset", vnull) ] ] :=
  ⟨rfl, rfl⟩

/-- **C9 amended, instantiated**: the zero-default behaviour at a further
concrete clock and description. -/
theorem C9_witness :
    process_daily_forecast (fun _ => 2) 5
        (vdict [("list", vlist [vdict [("weather", vlist [vdict [("description", vstr "few clouds")]])]])]) =
      [ vdict
          [ ("dt", vnull),
            ("temp_min", vnum 0),
            ("temp_max", vnum 0),
            ("temp_day", vnum 0),
            ("temp_night", vnum 0),
            ("description", vstr "Few Clouds"),
            ("main", vstr ""),
            ("icon", vstr ""),
            ("humidity", vnull),
            ("pressure", vnull),
            ("wind_speed", vnull),
            ("wind_deg", vnull),
            ("clouds", vnull),
            ("pop", vnum 0),
            ("uv_index", vnull),
            ("sunrise", vnull),
            ("sunset", vnull) ] ] :=
  (C9_amended_zero_defaults (fun _ => 2) 5 "few clouds").1
